import Mathlib

/-!
Shallow embedding of the sigilborn breeding (summoning) core:
`src/game/classes.ts`, `src/game/summoning.ts` and the genetics module
(`inheritGenes` / `areTooRelated`).  TypeScript numbers are modelled as
`ℤ` (integer-valued fields) or `ℚ` (probabilities and uniform draws in
`[0,1)`; the source draws IEEE doubles from `Math.random()`, modelled
here as exact rationals).  Randomness is passed explicitly: every
`Math.random()` call of a code path becomes one `ℚ` argument (or a field
of a record of draws).  Timestamps (`Date`) are modelled as integer
milliseconds, with `now` an explicit parameter.
-/

namespace Sigilborn

-- ─── Enumerated value domains (src/types.ts) ──────────────────────────

inductive Rarity
  | common | uncommon | rare | legendary | mythic
deriving DecidableEq, Repr, Inhabited, Fintype

inductive SigilClass
  | ember | thorn | veil | tidecaller | sparkwright | hollow
deriving DecidableEq, Repr, Inhabited, Fintype

inductive Profession
  | mining | fishing | foraging | gardening
deriving DecidableEq, Repr, Inhabited, Fintype

inductive ActiveAbility
  | power_strike | keen_eye | swift_hands | iron_will
  | deep_focus | lucky_find | second_wind | elemental_surge
deriving DecidableEq, Repr, Inhabited, Fintype

inductive PassiveAbility
  | sturdy | nimble | scholar | harvester
  | enduring | fortunate | resilient | prodigy
deriving DecidableEq, Repr, Inhabited, Fintype

inductive StatName
  | str | dex | agi | vit | «end» | int | wis | lck
deriving DecidableEq, Repr, Inhabited, Fintype

/-- A stat block: eight named integer attributes (a TS object keyed by
`StatName`, modelled as a total function). -/
def SigilStats : Type := StatName → ℤ

instance : Inhabited SigilStats := ⟨fun _ => 0⟩

/-- `stats[key] = v` object update. -/
def updateStat (stats : SigilStats) (key : StatName) (v : ℤ) : SigilStats :=
  fun k => if k = key then v else stats k

/-- Per-stat growth probabilities (TS object of numbers in [0,1]). -/
def StatGrowthRates : Type := StatName → ℚ

-- ─── Trait Registry (src/game/classes.ts) ─────────────────────────────

structure ClassDefinition where
  name : String
  role : String
  primaryStats : List StatName
  profession : Profession
  baseStats : SigilStats
  primaryGrowth : StatGrowthRates
  secondaryGrowth : StatGrowthRates

open StatName in
/-- `CLASS_DEFINITIONS` from src/game/classes.ts (descriptions omitted:
they are display-only strings never read by the core). -/
def CLASS_DEFINITIONS : SigilClass → ClassDefinition
  | .ember =>
    { name := "Ember", role := "Warrior"
      primaryStats := [str, «end»], profession := .mining
      baseStats := fun
        | str => 12 | dex => 7 | agi => 8 | vit => 9
        | «end» => 11 | int => 5 | wis => 4 | lck => 6
      primaryGrowth := fun
        | str => 0.75 | dex => 0.20 | agi => 0.30 | vit => 0.35
        | «end» => 0.70 | int => 0.10 | wis => 0.10 | lck => 0.20
      secondaryGrowth := fun
        | str => 0.30 | dex => 0.10 | agi => 0.15 | vit => 0.20
        | «end» => 0.30 | int => 0.05 | wis => 0.05 | lck => 0.10 }
  | .thorn =>
    { name := "Thorn", role := "Cultivator"
      primaryStats := [vit, wis], profession := .gardening
      baseStats := fun
        | str => 5 | dex => 6 | agi => 5 | vit => 12
        | «end» => 9 | int => 8 | wis => 11 | lck => 6
      primaryGrowth := fun
        | str => 0.10 | dex => 0.15 | agi => 0.10 | vit => 0.75
        | «end» => 0.35 | int => 0.30 | wis => 0.70 | lck => 0.20
      secondaryGrowth := fun
        | str => 0.05 | dex => 0.10 | agi => 0.05 | vit => 0.30
        | «end» => 0.20 | int => 0.15 | wis => 0.30 | lck => 0.10 }
  | .veil =>
    { name := "Veil", role := "Oracle"
      primaryStats := [int, wis], profession := .foraging
      baseStats := fun
        | str => 4 | dex => 7 | agi => 6 | vit => 7
        | «end» => 5 | int => 13 | wis => 12 | lck => 8
      primaryGrowth := fun
        | str => 0.05 | dex => 0.20 | agi => 0.15 | vit => 0.20
        | «end» => 0.10 | int => 0.80 | wis => 0.70 | lck => 0.30
      secondaryGrowth := fun
        | str => 0.05 | dex => 0.10 | agi => 0.10 | vit => 0.10
        | «end» => 0.05 | int => 0.35 | wis => 0.30 | lck => 0.15 }
  | .tidecaller =>
    { name := "Tidecaller", role := "Merchant"
      primaryStats := [agi, lck], profession := .fishing
      baseStats := fun
        | str => 6 | dex => 8 | agi => 11 | vit => 7
        | «end» => 6 | int => 8 | wis => 7 | lck => 12
      primaryGrowth := fun
        | str => 0.15 | dex => 0.30 | agi => 0.70 | vit => 0.20
        | «end» => 0.15 | int => 0.25 | wis => 0.20 | lck => 0.75
      secondaryGrowth := fun
        | str => 0.10 | dex => 0.15 | agi => 0.30 | vit => 0.10
        | «end» => 0.10 | int => 0.15 | wis => 0.10 | lck => 0.30 }
  | .sparkwright =>
    { name := "Sparkwright", role := "Builder"
      primaryStats := [int, dex], profession := .mining
      baseStats := fun
        | str => 7 | dex => 11 | agi => 6 | vit => 6
        | «end» => 7 | int => 13 | wis => 7 | lck => 8
      primaryGrowth := fun
        | str => 0.20 | dex => 0.70 | agi => 0.15 | vit => 0.15
        | «end» => 0.20 | int => 0.75 | wis => 0.20 | lck => 0.30
      secondaryGrowth := fun
        | str => 0.10 | dex => 0.30 | agi => 0.10 | vit => 0.10
        | «end» => 0.10 | int => 0.35 | wis => 0.10 | lck => 0.15 }
  | .hollow =>
    { name := "Hollow", role := "Phantom"
      primaryStats := [agi, str], profession := .fishing
      baseStats := fun
        | str => 10 | dex => 8 | agi => 12 | vit => 4
        | «end» => 5 | int => 9 | wis => 6 | lck => 11
      primaryGrowth := fun
        | str => 0.65 | dex => 0.25 | agi => 0.75 | vit => 0.05
        | «end» => 0.10 | int => 0.30 | wis => 0.15 | lck => 0.45
      secondaryGrowth := fun
        | str => 0.25 | dex => 0.15 | agi => 0.30 | vit => 0.05
        | «end» => 0.05 | int => 0.15 | wis => 0.10 | lck => 0.20 }

/-- One stat-bonus pass of a rarity definition. -/
structure StatBonus where
  count : ℕ
  amount : ℤ
  random : Bool
deriving DecidableEq, Repr

structure RarityDefinition where
  name : String
  chance : ℚ
  statBonuses : List StatBonus
deriving DecidableEq, Repr

/-- `RARITY_DEFINITIONS` from src/game/classes.ts. -/
def RARITY_DEFINITIONS : Rarity → RarityDefinition
  | .common =>
    { name := "Common", chance := 0.75, statBonuses := [] }
  | .uncommon =>
    { name := "Uncommon", chance := 0.20
      statBonuses := [⟨2, 1, false⟩] }
  | .rare =>
    { name := "Rare", chance := 0.04
      statBonuses := [⟨3, 1, false⟩, ⟨1, 1, true⟩] }
  | .legendary =>
    { name := "Legendary", chance := 0.009
      statBonuses := [⟨3, 1, false⟩, ⟨2, 1, false⟩, ⟨1, 2, false⟩] }
  | .mythic =>
    { name := "Mythic", chance := 0.001
      statBonuses := [⟨3, 2, false⟩, ⟨3, 1, false⟩, ⟨1, 1, false⟩] }

open StatName in
/-- `STAT_KEYS` from src/game/classes.ts. -/
def STAT_KEYS : List StatName :=
  [str, dex, agi, vit, «end», int, wis, lck]

-- ─── Stat Synthesizer (src/game/classes.ts) ───────────────────────────

/-- `generateBaseStats`: for each stat key the source computes
`variance = Math.floor(Math.random() * 5) - 2` and stores
`Math.max(1, stats[key] + variance)`.  `draws key` is the uniform draw
for that key. -/
def generateBaseStats (sigilClass : SigilClass) (draws : StatName → ℚ) :
    SigilStats :=
  fun key =>
    let variance := ⌊draws key * 5⌋ - 2
    max 1 ((CLASS_DEFINITIONS sigilClass).baseStats key + variance)

/-- One stat-bonus pass of `applyRarityBonuses`: loops `count` times,
each iteration picking `idx = Math.floor(rand * available.length)`,
removing that stat from `available` (`splice`) and adding `amount` to
it; an empty `available` breaks the loop.  (The source's
`bonus.random ? … : …` ternary has textually identical branches, so no
flag is consulted here.)  `draws` is the stream of uniform draws and
`k` the index of the next unused draw. -/
def applyBonusPass (stats : SigilStats) (available : List StatName)
    (count : ℕ) (amount : ℤ) (draws : ℕ → ℚ) (k : ℕ) : SigilStats :=
  match count with
  | 0 => stats
  | c + 1 =>
    if available.isEmpty then stats
    else
      let idx := (⌊draws k * available.length⌋).toNat
      let stat := available.getD idx StatName.str
      applyBonusPass (updateStat stats stat (stats stat + amount))
        (available.eraseIdx idx) c amount draws (k + 1)

/-- The fold of `applyRarityBonuses` over the rarity's bonus passes;
every pass starts from a fresh copy of `STAT_KEYS` (`const available =
[...STAT_KEYS]` inside the pass loop). -/
def applyBonusList (stats : SigilStats) (passes : List StatBonus)
    (draws : ℕ → ℚ) (k : ℕ) : SigilStats :=
  match passes with
  | [] => stats
  | b :: rest =>
    applyBonusList (applyBonusPass stats STAT_KEYS b.count b.amount draws k)
      rest draws (k + b.count)

/-- `applyRarityBonuses` from src/game/classes.ts. -/
def applyRarityBonuses (stats : SigilStats) (rarity : Rarity)
    (draws : ℕ → ℚ) : SigilStats :=
  applyBonusList stats (RARITY_DEFINITIONS rarity).statBonuses draws 0

/-- `rollStatGrowth`: per stat, one Bernoulli trial against the primary
growth rate (`d1`) and one against the secondary rate (`d2`), each
success adding +1. -/
def rollStatGrowth (currentStats : SigilStats)
    (primaryGrowth secondaryGrowth : StatGrowthRates)
    (d1 d2 : StatName → ℚ) : SigilStats :=
  fun key =>
    currentStats key
      + (if d1 key < primaryGrowth key then 1 else 0)
      + (if d2 key < secondaryGrowth key then 1 else 0)

/-- `calculateMaxHp = 50 + vit*5 + level*10`. -/
def calculateMaxHp (stats : SigilStats) (level : ℕ) : ℤ :=
  50 + stats StatName.vit * 5 + (level : ℤ) * 10

/-- `calculateMaxMp = 25 + int*3 + wis*2 + level*5`. -/
def calculateMaxMp (stats : SigilStats) (level : ℕ) : ℤ :=
  25 + stats StatName.int * 3 + stats StatName.wis * 2 + (level : ℤ) * 5

/-- `calculateMaxStamina = min(25 + floor(level/2), 50)`. -/
def calculateMaxStamina (level : ℕ) : ℤ :=
  min (25 + (level : ℤ) / 2) 50

/-- `xpForLevel = floor(100 * 1.1^(level-1))`, 0 for level ≤ 0.  The
source computes with IEEE doubles; here `1.1` is the exact rational
`11/10` (identical at the small levels the claims touch). -/
def xpForLevel (level : ℤ) : ℤ :=
  if level ≤ 0 then 0
  else ⌊(100 : ℚ) * (11 / 10 : ℚ) ^ (level - 1).toNat⌋

-- ─── Genetics (gene pools and inheritance) ────────────────────────────

open SigilClass in
/-- `CLASSES` pool from the genetics module. -/
def CLASSES : List SigilClass :=
  [ember, thorn, veil, tidecaller, sparkwright, hollow]

open Profession in
/-- `PROFESSIONS` pool. -/
def PROFESSIONS : List Profession :=
  [mining, fishing, foraging, gardening]

open ActiveAbility in
/-- `ACTIVE_ABILITIES` pool. -/
def ACTIVE_ABILITIES : List ActiveAbility :=
  [power_strike, keen_eye, swift_hands, iron_will,
   deep_focus, lucky_find, second_wind, elemental_surge]

open PassiveAbility in
/-- `PASSIVE_ABILITIES` pool. -/
def PASSIVE_ABILITIES : List PassiveAbility :=
  [sturdy, nimble, scholar, harvester,
   enduring, fortunate, resilient, prodigy]

open StatName in
/-- `STAT_NAMES` pool from the genetics module (same keys as
`STAT_KEYS`). -/
def STAT_NAMES : List StatName :=
  [str, dex, agi, vit, «end», int, wis, lck]

def DOMINANT_CHANCE : ℚ := 0.75
def RECESSIVE_CHANCE : ℚ := 0.1875
def HIDDEN_CHANCE : ℚ := 0.0625
def MUTATION_RATE : ℚ := 0.02

/-- One gene slot: dominant / recessive / hidden layers. -/
structure GeneLayers (T : Type) where
  dominant : T
  recessive : T
  hidden : T
deriving DecidableEq, Repr

/-- `randomFrom(arr) = arr[Math.floor(Math.random() * arr.length)]`,
with `r` the uniform draw. -/
def randomFrom {T : Type} [Inhabited T] (arr : List T) (r : ℚ) : T :=
  arr.getD (⌊r * arr.length⌋).toNat default

/-- `selectGene`: dominant if the roll is below `DOMINANT_CHANCE`,
recessive below `DOMINANT_CHANCE + RECESSIVE_CHANCE`, hidden
otherwise. -/
def selectGene {T : Type} (layers : GeneLayers T) (roll : ℚ) : T :=
  if roll < DOMINANT_CHANCE then layers.dominant
  else if roll < DOMINANT_CHANCE + RECESSIVE_CHANCE then layers.recessive
  else layers.hidden

/-- `maybeMutate`: with probability `MUTATION_RATE` (draw `m`) replace
the gene by a uniform pick from the pool (draw `r`). -/
def maybeMutate {T : Type} [Inhabited T] (gene : T) (pool : List T)
    (m r : ℚ) : T :=
  if m < MUTATION_RATE then randomFrom pool r else gene

/-- The uniform draws consumed by one `inheritSlot` call: `sel1`/`sel2`
for the two `selectGene` calls, `hid` for the hidden-layer pick, and
`m·`/`r·` for the three `maybeMutate` calls (dominant, recessive,
hidden). -/
structure SlotRnd where
  sel1 : ℚ
  sel2 : ℚ
  hid : ℚ
  m1 : ℚ
  r1 : ℚ
  m2 : ℚ
  r2 : ℚ
  m3 : ℚ
  r3 : ℚ

/-- `inheritSlot`: dominant from parent 1's selection, recessive from
parent 2's selection, hidden uniform from the pool; each final layer
then passes through `maybeMutate`. -/
def inheritSlot {T : Type} [Inhabited T] (p1 p2 : GeneLayers T)
    (pool : List T) (rnd : SlotRnd) : GeneLayers T :=
  let fromP1 := selectGene p1 rnd.sel1
  let fromP2 := selectGene p2 rnd.sel2
  let hidden := randomFrom pool rnd.hid
  { dominant := maybeMutate fromP1 pool rnd.m1 rnd.r1
    recessive := maybeMutate fromP2 pool rnd.m2 rnd.r2
    hidden := maybeMutate hidden pool rnd.m3 rnd.r3 }

/-- A genome: six independent gene slots. -/
structure SigilGenome where
  «class» : GeneLayers SigilClass
  subclass : GeneLayers SigilClass
  profession : GeneLayers Profession
  activeAbility : GeneLayers ActiveAbility
  passiveAbility : GeneLayers PassiveAbility
  statBoost : GeneLayers StatName
deriving DecidableEq, Repr

/-- Per-slot randomness for one `inheritGenes` call (the six slots use
disjoint draws). -/
structure GenomeRnd where
  «class» : SlotRnd
  subclass : SlotRnd
  profession : SlotRnd
  activeAbility : SlotRnd
  passiveAbility : SlotRnd
  statBoost : SlotRnd

/-- `inheritGenes`: slot-wise application of `inheritSlot` with each
slot's own pool. -/
def inheritGenes (parent1 parent2 : SigilGenome) (rnd : GenomeRnd) :
    SigilGenome :=
  { «class» := inheritSlot parent1.«class» parent2.«class» CLASSES rnd.«class»
    subclass := inheritSlot parent1.subclass parent2.subclass CLASSES rnd.subclass
    profession := inheritSlot parent1.profession parent2.profession PROFESSIONS rnd.profession
    activeAbility := inheritSlot parent1.activeAbility parent2.activeAbility ACTIVE_ABILITIES rnd.activeAbility
    passiveAbility := inheritSlot parent1.passiveAbility parent2.passiveAbility PASSIVE_ABILITIES rnd.passiveAbility
    statBoost := inheritSlot parent1.statBoost parent2.statBoost STAT_NAMES rnd.statBoost }

/-- `areTooRelated` from the genetics module: parent-child if either
profile's id is in the other's parent pair; siblings if both parent
pairs are equal up to order. -/
def areTooRelated (sigil1ParentIds sigil2ParentIds : Option (String × String))
    (sigil1Id sigil2Id : String) : Bool :=
  let inPair : String × String → String → Bool :=
    fun p x => p.1 == x || p.2 == x
  if (sigil1ParentIds.map (fun p => inPair p sigil2Id)).getD false then true
  else if (sigil2ParentIds.map (fun p => inPair p sigil1Id)).getD false then true
  else
    match sigil1ParentIds, sigil2ParentIds with
    | some p, some q =>
      let sameParents := p.1 == q.1 && p.2 == q.2
      let swappedParents := p.1 == q.2 && p.2 == q.1
      sameParents || swappedParents
    | _, _ => false

-- ─── Profiles and summoning (src/game/summoning.ts) ───────────────────

/-- A creature profile (`SigilProfile` from src/types.ts, the fields the
core reads and writes).  Timestamps are integer milliseconds; the
cooldown expiry is `none` when unset. -/
structure SigilProfile where
  id : String
  name : String
  «class» : SigilClass
  subclass : SigilClass
  rarity : Rarity
  generation : ℕ
  level : ℕ
  xp : ℤ
  xpToNextLevel : ℤ
  stats : SigilStats
  statGrowthPrimary : StatGrowthRates
  statGrowthSecondary : StatGrowthRates
  genes : SigilGenome
  profession : Profession
  professionSkillLevel : ℕ
  stamina : ℤ
  maxStamina : ℤ
  hp : ℤ
  maxHp : ℤ
  mp : ℤ
  maxMp : ℤ
  summonsRemaining : ℤ
  maxSummons : ℤ
  summonCooldownEnd : Option ℤ
  parentIds : Option (String × String)
  owner : String
  createdAt : ℤ

def BASE_COST : ℤ := 2000
def COST_PER_SUMMON : ℤ := 1000
def COST_PER_GENERATION : ℤ := 500
def GEN0_BASE_COOLDOWN_HOURS : ℤ := 4
def GEN0_COOLDOWN_INCREMENT_HOURS : ℤ := 4
def GEN0_MAX_SUMMONS : ℤ := 10

/-- `parentCost` from src/game/summoning.ts. -/
def parentCost (parent : SigilProfile) : ℤ :=
  let summonsUsed := parent.maxSummons - parent.summonsRemaining
  BASE_COST + COST_PER_SUMMON * summonsUsed
    + COST_PER_GENERATION * (parent.generation : ℤ)

/-- `calculateSummonCost`: the more expensive parent sets the price. -/
def calculateSummonCost (parent1 parent2 : SigilProfile) : ℤ :=
  max (parentCost parent1) (parentCost parent2)

/-- `cooldownHours` from src/game/summoning.ts. -/
def cooldownHours (parent : SigilProfile) : ℤ :=
  let summonsUsed := parent.maxSummons - parent.summonsRemaining
  if parent.generation = 0 then
    GEN0_BASE_COOLDOWN_HOURS + GEN0_COOLDOWN_INCREMENT_HOURS * summonsUsed
  else
    (24 + 8 * (parent.generation : ℤ)) * (summonsUsed + 1)

/-- `cooldownEndTime`: `Date.now() + hours*60*60*1000`, with `now` the
explicit current time in milliseconds. -/
def cooldownEndTime (now : ℤ) (parent : SigilProfile) : ℤ :=
  now + cooldownHours parent * (60 * 60 * 1000)

/-- `SummonEligibility` result record. -/
structure SummonEligibility where
  eligible : Bool
  reason : Option String
  cost : Option ℤ
  cooldownHoursP1 : Option ℤ
  cooldownHoursP2 : Option ℤ
deriving DecidableEq, Repr

/-- The source's cooldown test
`parent.summonCooldownEnd && new Date(parent.summonCooldownEnd) > new Date()`. -/
def onCooldown (now : ℤ) (parent : SigilProfile) : Bool :=
  match parent.summonCooldownEnd with
  | some t => now < t
  | none => false

/-- `checkSummonEligibility` from src/game/summoning.ts. -/
def checkSummonEligibility (now : ℤ) (parent1 parent2 : SigilProfile) :
    SummonEligibility :=
  if parent1.id = parent2.id then
    { eligible := false, reason := some "Cannot summon with self"
      cost := none, cooldownHoursP1 := none, cooldownHoursP2 := none }
  else if areTooRelated parent1.parentIds parent2.parentIds
      parent1.id parent2.id then
    { eligible := false
      reason := some "Parents are too closely related (siblings or parent-child)"
      cost := none, cooldownHoursP1 := none, cooldownHoursP2 := none }
  else if parent1.summonsRemaining ≤ 0 then
    { eligible := false
      reason := some (parent1.name ++ " has no summons remaining")
      cost := none, cooldownHoursP1 := none, cooldownHoursP2 := none }
  else if parent2.summonsRemaining ≤ 0 then
    { eligible := false
      reason := some (parent2.name ++ " has no summons remaining")
      cost := none, cooldownHoursP1 := none, cooldownHoursP2 := none }
  else if onCooldown now parent1 then
    { eligible := false
      reason := some (parent1.name ++ " is on cooldown until "
        ++ toString (parent1.summonCooldownEnd.getD 0))
      cost := none, cooldownHoursP1 := none, cooldownHoursP2 := none }
  else if onCooldown now parent2 then
    { eligible := false
      reason := some (parent2.name ++ " is on cooldown until "
        ++ toString (parent2.summonCooldownEnd.getD 0))
      cost := none, cooldownHoursP1 := none, cooldownHoursP2 := none }
  else
    { eligible := true, reason := none
      cost := some (calculateSummonCost parent1 parent2)
      cooldownHoursP1 := some (cooldownHours parent1)
      cooldownHoursP2 := some (cooldownHours parent2) }

/-- `RARITY_TIERS` from src/game/summoning.ts. -/
def RARITY_TIERS : List Rarity :=
  [.common, .uncommon, .rare, .legendary, .mythic]

/-- `rollOffspringRarity`: hard-coded thresholds shifted by a bonus of
`avgTier * 0.03`, with `roll` the single uniform draw. -/
def rollOffspringRarity (p1Rarity p2Rarity : Rarity) (roll : ℚ) : Rarity :=
  let p1Tier : ℚ := (RARITY_TIERS.indexOf p1Rarity : ℚ)
  let p2Tier : ℚ := (RARITY_TIERS.indexOf p2Rarity : ℚ)
  let avgTier := (p1Tier + p2Tier) / 2
  let bonus := avgTier * 0.03
  if roll < 0.001 + bonus * 0.01 then .mythic
  else if roll < 0.009 + bonus * 0.05 then .legendary
  else if roll < 0.04 + bonus * 0.1 then .rare
  else if roll < 0.20 + bonus * 0.15 then .uncommon
  else .common

structure SummonRecord where
  id : String
  parent1Id : String
  parent2Id : String
  offspringId : String
  cost : ℤ
  generation : ℕ
  timestamp : ℤ
deriving DecidableEq, Repr

structure SummonResult where
  offspring : SigilProfile
  record : SummonRecord
  cost : ℤ

/-- All uniform draws consumed by one `executeSummon` call. -/
structure SummonRnd where
  genome : GenomeRnd
  rarityRoll : ℚ
  statDraws : StatName → ℚ
  bonusDraws : ℕ → ℚ

/-- `executeSummon` from src/game/summoning.ts.  The source obtains
fresh ulids and the current time from the environment; here
`offspringId`, `recordId` and `now` are explicit parameters, and the
random draws are the fields of `rnd`. -/
def executeSummon (parent1 parent2 : SigilProfile)
    (offspringName owner : String) (rnd : SummonRnd)
    (offspringId recordId : String) (now : ℤ) : SummonResult :=
  let cost := calculateSummonCost parent1 parent2
  let generation := max parent1.generation parent2.generation + 1
  let genes := inheritGenes parent1.genes parent2.genes rnd.genome
  let sigilClass := genes.«class».dominant
  let subclass := genes.subclass.dominant
  let rarity := rollOffspringRarity parent1.rarity parent2.rarity rnd.rarityRoll
  let stats0 := generateBaseStats sigilClass rnd.statDraws
  let boostedStat := genes.statBoost.dominant
  let stats1 := updateStat stats0 boostedStat (stats0 boostedStat + 2)
  let stats :=
    if rarity ≠ .common then applyRarityBonuses stats1 rarity rnd.bonusDraws
    else stats1
  let weakerParentSummons := min parent1.summonsRemaining parent2.summonsRemaining
  let maxSummons := max 1 (weakerParentSummons - 1)
  let offspring : SigilProfile :=
    { id := offspringId
      name := offspringName
      «class» := sigilClass
      subclass := subclass
      rarity := rarity
      generation := generation
      level := 1
      xp := 0
      xpToNextLevel := xpForLevel 1
      stats := stats
      statGrowthPrimary := (CLASS_DEFINITIONS sigilClass).primaryGrowth
      statGrowthSecondary := (CLASS_DEFINITIONS subclass).secondaryGrowth
      genes := genes
      profession := genes.profession.dominant
      professionSkillLevel := 0
      stamina := 25
      maxStamina := calculateMaxStamina 1
      hp := calculateMaxHp stats 1
      maxHp := calculateMaxHp stats 1
      mp := calculateMaxMp stats 1
      maxMp := calculateMaxMp stats 1
      summonsRemaining := maxSummons
      maxSummons := maxSummons
      summonCooldownEnd := none
      parentIds := some (parent1.id, parent2.id)
      owner := owner
      createdAt := now }
  let record : SummonRecord :=
    { id := recordId
      parent1Id := parent1.id
      parent2Id := parent2.id
      offspringId := offspringId
      cost := cost
      generation := generation
      timestamp := now }
  { offspring := offspring, record := record, cost := cost }

/-- State-threading translation of the `executeSummon` body: the parent
profiles are threaded through every statement of the source body, and
since no statement assigns to `parent1` or `parent2` (the body only
reads their fields), they emerge unchanged alongside the result. -/
def executeSummonFull (parent1 parent2 : SigilProfile)
    (offspringName owner : String) (rnd : SummonRnd)
    (offspringId recordId : String) (now : ℤ) :
    SummonResult × SigilProfile × SigilProfile :=
  (executeSummon parent1 parent2 offspringName owner rnd offspringId
    recordId now, parent1, parent2)

/-- `applySummonToParent` (mutates the parent in place in the source;
modelled as profile → profile).  The decrement happens first, so the
cooldown is computed from the post-decrement use count. -/
def applySummonToParent (now : ℤ) (parent : SigilProfile) : SigilProfile :=
  let decremented :=
    { parent with summonsRemaining := parent.summonsRemaining - 1 }
  { decremented with
      summonCooldownEnd := some (cooldownEndTime now decremented) }

-- ─── Spec-side predicates and derived measures ────────────────────────

/-- An id appears in a recorded (optional) parent pair. -/
def pairHas (o : Option (String × String)) (x : String) : Prop :=
  match o with
  | some (a, b) => a = x ∨ b = x
  | none => False

/-- Both parent pairs are recorded and equal as unordered pairs. -/
def sameUnorderedParents (o1 o2 : Option (String × String)) : Prop :=
  match o1, o2 with
  | some (a, b), some (c, d) => ({a, b} : Set String) = {c, d}
  | _, _ => False

/-- The relatedness condition as the spec words it: either profile's id
appears in the other's recorded parent pair, or both share the same
unordered parent pair. -/
def relatedSpec (p1 p2 : SigilProfile) : Prop :=
  pairHas p1.parentIds p2.id ∨ pairHas p2.parentIds p1.id
    ∨ sameUnorderedParents p1.parentIds p2.parentIds

/-- The parent-rarity bonus of `rollOffspringRarity`
(`avgTier * 0.03`). -/
def bonusQ (p1 p2 : Rarity) : ℚ :=
  ((RARITY_TIERS.indexOf p1 : ℚ) + (RARITY_TIERS.indexOf p2 : ℚ)) / 2 * 0.03

/-- Threshold below which `rollOffspringRarity` returns mythic. -/
def mythicCut (p1 p2 : Rarity) : ℚ := 0.001 + bonusQ p1 p2 * 0.01

/-- Threshold below which (and at/above `mythicCut`) the roll returns
legendary. -/
def legendaryCut (p1 p2 : Rarity) : ℚ := 0.009 + bonusQ p1 p2 * 0.05

/-- Threshold for rare. -/
def rareCut (p1 p2 : Rarity) : ℚ := 0.04 + bonusQ p1 p2 * 0.1

/-- Threshold for uncommon. -/
def uncommonCut (p1 p2 : Rarity) : ℚ := 0.20 + bonusQ p1 p2 * 0.15

/-- Length of the sub-interval of `[0,1)` of rolls that
`rollOffspringRarity p1 p2` maps to each tier (the probability of that
tier under a single uniform draw). -/
def tierMeasure (p1 p2 : Rarity) : Rarity → ℚ
  | .mythic => mythicCut p1 p2
  | .legendary => legendaryCut p1 p2 - mythicCut p1 p2
  | .rare => rareCut p1 p2 - legendaryCut p1 p2
  | .uncommon => uncommonCut p1 p2 - rareCut p1 p2
  | .common => 1 - uncommonCut p1 p2

/-- The offspring-rarity distribution the specification asserts for two
tier-0 parents, written from the spec's words: walk the tiers from
rarest to most common accumulating the registry's base chances and
return the first tier whose cumulative threshold exceeds the draw
(so each tier's probability is exactly its registry chance). -/
def claimedOffspringRarityCommon (roll : ℚ) : Rarity :=
  let m := (RARITY_DEFINITIONS .mythic).chance
  let l := (RARITY_DEFINITIONS .legendary).chance
  let r := (RARITY_DEFINITIONS .rare).chance
  let u := (RARITY_DEFINITIONS .uncommon).chance
  if roll < m then .mythic
  else if roll < m + l then .legendary
  else if roll < m + l + r then .rare
  else if roll < m + l + r + u then .uncommon
  else .common

-- ─── Concrete fixtures (test data for witnesses) ──────────────────────

/-- A concrete genome used by the example profiles below. -/
def exampleGenome : SigilGenome :=
  { «class» := ⟨.ember, .thorn, .veil⟩
    subclass := ⟨.thorn, .veil, .hollow⟩
    profession := ⟨.mining, .fishing, .foraging⟩
    activeAbility := ⟨.power_strike, .keen_eye, .iron_will⟩
    passiveAbility := ⟨.sturdy, .nimble, .scholar⟩
    statBoost := ⟨.str, .dex, .lck⟩ }

/-- Builds a concrete profile; only the fields the summoning core
branches on are parameters. -/
def mkProfile (id name : String) (gen : ℕ) (remaining maxS : ℤ)
    (cooldown : Option ℤ) (parents : Option (String × String)) :
    SigilProfile :=
  { id := id, name := name, «class» := .ember, subclass := .thorn
    rarity := .common, generation := gen, level := 1, xp := 0
    xpToNextLevel := 100, stats := fun _ => 10
    statGrowthPrimary := fun _ => 0.5, statGrowthSecondary := fun _ => 0.25
    genes := exampleGenome, profession := .mining, professionSkillLevel := 0
    stamina := 25, maxStamina := 25, hp := 110, maxHp := 110
    mp := 75, maxMp := 75, summonsRemaining := remaining
    maxSummons := maxS, summonCooldownEnd := cooldown
    parentIds := parents, owner := "owner-1", createdAt := 0 }

/-- A fresh generation-0 parent (no summons consumed, no cooldown). -/
def exGen0Parent : SigilProfile := mkProfile "id-a" "Asha" 0 10 10 none none

/-- A fresh generation-1 parent, unrelated to `exGen0Parent`. -/
def exGen1Parent : SigilProfile :=
  mkProfile "id-b" "Bryn" 1 9 9 none (some ("id-x", "id-y"))

/-- Concrete draws for one gene slot (all `1/2`). -/
def exampleSlotRnd : SlotRnd :=
  ⟨1/2, 1/2, 1/2, 1/2, 1/2, 1/2, 1/2, 1/2, 1/2⟩

/-- Concrete draws for a whole genome. -/
def exampleGenomeRnd : GenomeRnd :=
  ⟨exampleSlotRnd, exampleSlotRnd, exampleSlotRnd,
   exampleSlotRnd, exampleSlotRnd, exampleSlotRnd⟩

/-- Concrete draws for one `executeSummon` call. -/
def exampleRnd : SummonRnd :=
  { genome := exampleGenomeRnd, rarityRoll := 1/2
    statDraws := fun _ => 1/2, bonusDraws := fun _ => 1/2 }

-- ─── Helper lemmas ────────────────────────────────────────────────────

/-- Every base stat of every archetype is at least 1. -/
lemma baseStats_ge_one :
    ∀ (c : SigilClass) (k : StatName),
      1 ≤ (CLASS_DEFINITIONS c).baseStats k := by decide

/-- Every bonus amount in every rarity's schedule is nonnegative. -/
lemma rarity_amounts_nonneg :
    ∀ (r : Rarity), ∀ b ∈ (RARITY_DEFINITIONS r).statBonuses,
      0 ≤ b.amount := by decide

/-- `updateStat` with a nonnegatively increased value never decreases
any key. -/
lemma updateStat_add_mono (stats : SigilStats) (key : StatName)
    (amt : ℤ) (h : 0 ≤ amt) (k : StatName) :
    stats k ≤ updateStat stats key (stats key + amt) k := by
  unfold updateStat
  by_cases hk : k = key
  · subst hk; simp [h]
  · simp [hk]

/-- One bonus pass never decreases any stat. -/
lemma applyBonusPass_mono (amount : ℤ) (h : 0 ≤ amount) :
    ∀ (count : ℕ) (stats : SigilStats) (available : List StatName)
      (draws : ℕ → ℚ) (i : ℕ) (k : StatName),
      stats k ≤ applyBonusPass stats available count amount draws i k := by
  intro count
  induction count with
  | zero => intro stats available draws i k; simp [applyBonusPass]
  | succ c ih =>
    intro stats available draws i k
    rw [applyBonusPass]
    by_cases he : available.isEmpty
    · simp [he]
    · simp only [he, if_false]
      exact le_trans
        (updateStat_add_mono stats _ amount h k)
        (ih _ _ draws (i + 1) k)

/-- The fold over a rarity's bonus passes never decreases any stat. -/
lemma applyBonusList_mono :
    ∀ (passes : List StatBonus), (∀ b ∈ passes, 0 ≤ b.amount) →
      ∀ (stats : SigilStats) (draws : ℕ → ℚ) (i : ℕ) (k : StatName),
        stats k ≤ applyBonusList stats passes draws i k := by
  intro passes
  induction passes with
  | nil => intro _ stats draws i k; simp [applyBonusList]
  | cons b rest ih =>
    intro hb stats draws i k
    rw [applyBonusList]
    exact le_trans
      (applyBonusPass_mono b.amount (hb b (by simp)) b.count stats _ draws i k)
      (ih (fun x hx => hb x (by simp [hx])) _ draws (i + b.count) k)

/-- `applyRarityBonuses` never decreases any stat. -/
lemma applyRarityBonuses_mono (stats : SigilStats) (r : Rarity)
    (draws : ℕ → ℚ) (k : StatName) :
    stats k ≤ applyRarityBonuses stats r draws k :=
  applyBonusList_mono _ (rarity_amounts_nonneg r) stats draws 0 k

/-- The source's boolean relatedness test agrees with the spec's
wording. -/
lemma areTooRelated_iff (o1 o2 : Option (String × String))
    (i1 i2 : String) :
    areTooRelated o1 o2 i1 i2 = true ↔
      pairHas o1 i2 ∨ pairHas o2 i1 ∨ sameUnorderedParents o1 o2 := by
  cases o1 with
  | none =>
    cases o2 with
    | none => simp [areTooRelated, pairHas, sameUnorderedParents]
    | some q =>
      obtain ⟨c, d⟩ := q
      simp [areTooRelated, pairHas, sameUnorderedParents]
  | some p =>
    obtain ⟨a, b⟩ := p
    cases o2 with
    | none =>
      simp [areTooRelated, pairHas, sameUnorderedParents]
    | some q =>
      obtain ⟨c, d⟩ := q
      simp only [areTooRelated, Option.map_some, Option.getD_some,
        pairHas, sameUnorderedParents, Set.pair_eq_pair_iff]
      split_ifs with h1 h2
      · simp at h1; tauto
      · simp at h2; tauto
      · simp at h1 h2
        simp only [Bool.or_eq_true, Bool.and_eq_true, beq_iff_eq]
        tauto

/-- Level 1 requires 100 XP (`floor(100 * 1.1^0)`). -/
lemma xpForLevel_one : xpForLevel 1 = 100 := by
  have h1 : ((1 : ℤ) - 1).toNat = 0 := rfl
  rw [xpForLevel, if_neg (by norm_num), h1, pow_zero, mul_one]
  simp

/-- The source's cooldown test, unfolded. -/
lemma onCooldown_iff (now : ℤ) (p : SigilProfile) :
    onCooldown now p = true ↔
      ∃ t, p.summonCooldownEnd = some t ∧ now < t := by
  cases h : p.summonCooldownEnd <;> simp [onCooldown, h]

-- ─── Claim theorems ───────────────────────────────────────────────────

/-- Claim C2: each parent's individual cost is
`2000 + 1000·(summons consumed) + 500·generation`; a breeding's cost is
the maximum of the two parents' costs, not the sum; two parents with
individual costs 2500 and 3200 yield exactly 3200; two fresh
generation-0 parents yield exactly 2000. -/
theorem summonCost_spec :
    (∀ p : SigilProfile,
      parentCost p =
        2000 + 1000 * (p.maxSummons - p.summonsRemaining)
          + 500 * (p.generation : ℤ))
    ∧ (∀ p1 p2 : SigilProfile,
      calculateSummonCost p1 p2 = max (parentCost p1) (parentCost p2))
    ∧ (∀ p1 p2 : SigilProfile,
      parentCost p1 = 2500 → parentCost p2 = 3200 →
      calculateSummonCost p1 p2 = 3200)
    ∧ (∀ p1 p2 : SigilProfile,
      p1.generation = 0 → p2.generation = 0 →
      p1.summonsRemaining = p1.maxSummons →
      p2.summonsRemaining = p2.maxSummons →
      calculateSummonCost p1 p2 = 2000) := by
  refine ⟨fun p => rfl, fun p1 p2 => rfl, ?_, ?_⟩
  · intro p1 p2 h1 h2
    simp [calculateSummonCost, h1, h2]
  · intro p1 p2 hg1 hg2 hs1 hs2
    simp [calculateSummonCost, parentCost, hg1, hg2, hs1, hs2,
      BASE_COST, COST_PER_SUMMON, COST_PER_GENERATION]

/-- Witness for C2 at two fresh generation-0 parents. -/
theorem summonCost_spec_witness :
    calculateSummonCost exGen0Parent exGen0Parent = 2000 :=
  summonCost_spec.2.2.2 exGen0Parent exGen0Parent rfl rfl rfl rfl

/-- Claim C5: every offspring of `executeSummon` has
generation `max(parents) + 1`, use budget
`max(1, min(parents' remaining) − 1)` with remaining = max, level 1 with
its experience target, full hp/mp, stamina at the level-1 maximum, no
cooldown, and the ordered parent-id pair recorded. -/
theorem executeSummon_offspring_fields :
    ∀ (p1 p2 : SigilProfile) (nm ow : String) (rnd : SummonRnd)
      (oid rid : String) (now : ℤ),
      ((executeSummon p1 p2 nm ow rnd oid rid now).offspring.generation
          = max p1.generation p2.generation + 1)
      ∧ ((executeSummon p1 p2 nm ow rnd oid rid now).offspring.maxSummons
          = max 1 (min p1.summonsRemaining p2.summonsRemaining - 1))
      ∧ ((executeSummon p1 p2 nm ow rnd oid rid now).offspring.summonsRemaining
          = (executeSummon p1 p2 nm ow rnd oid rid now).offspring.maxSummons)
      ∧ ((executeSummon p1 p2 nm ow rnd oid rid now).offspring.level = 1)
      ∧ ((executeSummon p1 p2 nm ow rnd oid rid now).offspring.xp = 0)
      ∧ ((executeSummon p1 p2 nm ow rnd oid rid now).offspring.xpToNextLevel
          = xpForLevel 1)
      ∧ (xpForLevel 1 = 100)
      ∧ ((executeSummon p1 p2 nm ow rnd oid rid now).offspring.hp
          = (executeSummon p1 p2 nm ow rnd oid rid now).offspring.maxHp)
      ∧ ((executeSummon p1 p2 nm ow rnd oid rid now).offspring.maxHp
          = calculateMaxHp (executeSummon p1 p2 nm ow rnd oid rid now).offspring.stats 1)
      ∧ ((executeSummon p1 p2 nm ow rnd oid rid now).offspring.mp
          = (executeSummon p1 p2 nm ow rnd oid rid now).offspring.maxMp)
      ∧ ((executeSummon p1 p2 nm ow rnd oid rid now).offspring.maxMp
          = calculateMaxMp (executeSummon p1 p2 nm ow rnd oid rid now).offspring.stats 1)
      ∧ ((executeSummon p1 p2 nm ow rnd oid rid now).offspring.stamina
          = (executeSummon p1 p2 nm ow rnd oid rid now).offspring.maxStamina)
      ∧ ((executeSummon p1 p2 nm ow rnd oid rid now).offspring.maxStamina
          = calculateMaxStamina 1)
      ∧ ((executeSummon p1 p2 nm ow rnd oid rid now).offspring.summonCooldownEnd
          = none)
      ∧ ((executeSummon p1 p2 nm ow rnd oid rid now).offspring.parentIds
          = some (p1.id, p2.id)) := by
  intro p1 p2 nm ow rnd oid rid now
  refine ⟨rfl, rfl, rfl, rfl, rfl, rfl, xpForLevel_one, rfl, rfl, rfl, rfl,
    ?_, rfl, rfl, rfl⟩
  show (25 : ℤ) = calculateMaxStamina 1
  decide

/-- Claim C6: generation-0 parents follow the linear cooldown schedule
`4 + 4·usesConsumed`; generation ≥ 1 parents the multiplicative
`(24 + 8·generation)·(usesConsumed + 1)`; each parent's cooldown
depends only on its own fields, and the two parents of one (eligible)
breeding can get different cooldowns. -/
theorem cooldownHours_spec :
    (∀ p : SigilProfile, p.generation = 0 →
      cooldownHours p = 4 + 4 * (p.maxSummons - p.summonsRemaining))
    ∧ (∀ p : SigilProfile, 1 ≤ p.generation →
      cooldownHours p =
        (24 + 8 * (p.generation : ℤ))
          * ((p.maxSummons - p.summonsRemaining) + 1))
    ∧ (checkSummonEligibility 0 exGen0Parent exGen1Parent).eligible = true
    ∧ cooldownHours exGen0Parent = 4
    ∧ cooldownHours exGen1Parent = 32
    ∧ cooldownHours exGen0Parent ≠ cooldownHours exGen1Parent := by
  refine ⟨?_, ?_, by decide, by decide, by decide, by decide⟩
  · intro p h
    simp [cooldownHours, h, GEN0_BASE_COOLDOWN_HOURS,
      GEN0_COOLDOWN_INCREMENT_HOURS]
  · intro p h
    have h0 : p.generation ≠ 0 := by omega
    simp [cooldownHours, h0]

/-- Witness for C6 at the two example parents. -/
theorem cooldownHours_spec_witness :
    cooldownHours exGen0Parent
        = 4 + 4 * (exGen0Parent.maxSummons - exGen0Parent.summonsRemaining)
    ∧ cooldownHours exGen1Parent
        = (24 + 8 * (exGen1Parent.generation : ℤ))
            * ((exGen1Parent.maxSummons - exGen1Parent.summonsRemaining) + 1) :=
  ⟨cooldownHours_spec.1 exGen0Parent rfl,
   cooldownHours_spec.2.1 exGen1Parent (by decide)⟩

/-- Claim C9: `applySummonToParent` decrements `summonsRemaining` by
exactly 1, sets the cooldown expiry to now plus the duration computed
from the post-decrement use count, leaves every other field unchanged,
and applied twice decrements by 2 (deliberately not idempotent). -/
theorem applySummonToParent_spec :
    ∀ (now now2 : ℤ) (p : SigilProfile),
      ((applySummonToParent now p).summonsRemaining
          = p.summonsRemaining - 1)
      ∧ ((applySummonToParent now p).summonCooldownEnd
          = some (now + cooldownHours
              { p with summonsRemaining := p.summonsRemaining - 1 }
              * (60 * 60 * 1000)))
      ∧ (applySummonToParent now p).id = p.id
      ∧ (applySummonToParent now p).name = p.name
      ∧ (applySummonToParent now p).«class» = p.«class»
      ∧ (applySummonToParent now p).subclass = p.subclass
      ∧ (applySummonToParent now p).rarity = p.rarity
      ∧ (applySummonToParent now p).generation = p.generation
      ∧ (applySummonToParent now p).level = p.level
      ∧ (applySummonToParent now p).xp = p.xp
      ∧ (applySummonToParent now p).xpToNextLevel = p.xpToNextLevel
      ∧ (applySummonToParent now p).stats = p.stats
      ∧ (applySummonToParent now p).statGrowthPrimary = p.statGrowthPrimary
      ∧ (applySummonToParent now p).statGrowthSecondary = p.statGrowthSecondary
      ∧ (applySummonToParent now p).genes = p.genes
      ∧ (applySummonToParent now p).profession = p.profession
      ∧ (applySummonToParent now p).professionSkillLevel = p.professionSkillLevel
      ∧ (applySummonToParent now p).stamina = p.stamina
      ∧ (applySummonToParent now p).maxStamina = p.maxStamina
      ∧ (applySummonToParent now p).hp = p.hp
      ∧ (applySummonToParent now p).maxHp = p.maxHp
      ∧ (applySummonToParent now p).mp = p.mp
      ∧ (applySummonToParent now p).maxMp = p.maxMp
      ∧ (applySummonToParent now p).maxSummons = p.maxSummons
      ∧ (applySummonToParent now p).parentIds = p.parentIds
      ∧ (applySummonToParent now p).owner = p.owner
      ∧ (applySummonToParent now p).createdAt = p.createdAt
      ∧ ((applySummonToParent now2 (applySummonToParent now p)).summonsRemaining
          = p.summonsRemaining - 2) := by
  intro now now2 p
  refine ⟨rfl, rfl, rfl, rfl, rfl, rfl, rfl, rfl, rfl, rfl, rfl, rfl,
    rfl, rfl, rfl, rfl, rfl, rfl, rfl, rfl, rfl, rfl, rfl, rfl, rfl,
    rfl, rfl, ?_⟩
  show p.summonsRemaining - 1 - 1 = p.summonsRemaining - 2
  omega

/-- Claim C10: `executeSummon` does not mutate either parent: threading
both parent profiles through the body returns them unchanged, and the
only outputs are the offspring, the summon record and the cost. -/
theorem executeSummon_pure :
    ∀ (p1 p2 : SigilProfile) (nm ow : String) (rnd : SummonRnd)
      (oid rid : String) (now : ℤ),
      (executeSummonFull p1 p2 nm ow rnd oid rid now).2.1 = p1
      ∧ (executeSummonFull p1 p2 nm ow rnd oid rid now).2.2 = p2
      ∧ (executeSummonFull p1 p2 nm ow rnd oid rid now).1
          = executeSummon p1 p2 nm ow rnd oid rid now := by
  intro p1 p2 nm ow rnd oid rid now
  exact ⟨rfl, rfl, rfl⟩

/-- Claim C7: `0 ≤ summonsRemaining ≤ maxSummons` and `maxSummons ≥ 1`
holds of every fresh offspring of `executeSummon`, and is preserved by
`applySummonToParent` on any parent that passed the eligibility check
(`summonsRemaining ≥ 1`). -/
theorem summons_invariant :
    (∀ (p1 p2 : SigilProfile) (nm ow : String) (rnd : SummonRnd)
      (oid rid : String) (now : ℤ),
      1 ≤ (executeSummon p1 p2 nm ow rnd oid rid now).offspring.maxSummons
      ∧ 0 ≤ (executeSummon p1 p2 nm ow rnd oid rid now).offspring.summonsRemaining
      ∧ (executeSummon p1 p2 nm ow rnd oid rid now).offspring.summonsRemaining
          ≤ (executeSummon p1 p2 nm ow rnd oid rid now).offspring.maxSummons)
    ∧ (∀ (now : ℤ) (p : SigilProfile),
      0 ≤ p.summonsRemaining → p.summonsRemaining ≤ p.maxSummons →
      1 ≤ p.maxSummons → 1 ≤ p.summonsRemaining →
      0 ≤ (applySummonToParent now p).summonsRemaining
      ∧ (applySummonToParent now p).summonsRemaining
          ≤ (applySummonToParent now p).maxSummons
      ∧ 1 ≤ (applySummonToParent now p).maxSummons) := by
  constructor
  · intro p1 p2 nm ow rnd oid rid now
    have h1 : (1 : ℤ) ≤ max 1 (min p1.summonsRemaining p2.summonsRemaining - 1) :=
      le_max_left _ _
    exact ⟨h1, le_trans zero_le_one h1, le_refl _⟩
  · intro now p h0 hle hmax helig
    refine ⟨?_, ?_, ?_⟩ <;>
      simp only [applySummonToParent, cooldownEndTime] <;> omega

/-- Witness for C7's preservation part at a fresh parent. -/
theorem summons_invariant_witness :
    0 ≤ (applySummonToParent 0 exGen0Parent).summonsRemaining
    ∧ (applySummonToParent 0 exGen0Parent).summonsRemaining
        ≤ (applySummonToParent 0 exGen0Parent).maxSummons
    ∧ 1 ≤ (applySummonToParent 0 exGen0Parent).maxSummons :=
  summons_invariant.2 0 exGen0Parent (by decide) (by decide) (by decide)
    (by decide)

/-- Claim C3: `checkSummonEligibility` is ineligible exactly when the
profiles share an identity, are related (parent-child or same unordered
parent pair), a parent has no summons remaining, or a parent's cooldown
expiry is set and in the future; the first applicable reason (in that
order) is reported; otherwise it is eligible with the computed cost and
both parents' cooldown durations. -/
theorem checkSummonEligibility_spec :
    ∀ (now : ℤ) (p1 p2 : SigilProfile),
      ((checkSummonEligibility now p1 p2).eligible = false ↔
        (p1.id = p2.id ∨ relatedSpec p1 p2
          ∨ p1.summonsRemaining ≤ 0 ∨ p2.summonsRemaining ≤ 0
          ∨ (∃ t, p1.summonCooldownEnd = some t ∧ now < t)
          ∨ (∃ t, p2.summonCooldownEnd = some t ∧ now < t)))
      ∧ (p1.id = p2.id →
          (checkSummonEligibility now p1 p2).reason
            = some "Cannot summon with self")
      ∧ (p1.id ≠ p2.id → relatedSpec p1 p2 →
          (checkSummonEligibility now p1 p2).reason
            = some "Parents are too closely related (siblings or parent-child)")
      ∧ (p1.id ≠ p2.id → ¬ relatedSpec p1 p2 → p1.summonsRemaining ≤ 0 →
          (checkSummonEligibility now p1 p2).reason
            = some (p1.name ++ " has no summons remaining"))
      ∧ (p1.id ≠ p2.id → ¬ relatedSpec p1 p2 → 0 < p1.summonsRemaining →
          p2.summonsRemaining ≤ 0 →
          (checkSummonEligibility now p1 p2).reason
            = some (p2.name ++ " has no summons remaining"))
      ∧ (p1.id ≠ p2.id → ¬ relatedSpec p1 p2 → 0 < p1.summonsRemaining →
          0 < p2.summonsRemaining →
          (∃ t, p1.summonCooldownEnd = some t ∧ now < t) →
          (checkSummonEligibility now p1 p2).reason
            = some (p1.name ++ " is on cooldown until "
                ++ toString (p1.summonCooldownEnd.getD 0)))
      ∧ (p1.id ≠ p2.id → ¬ relatedSpec p1 p2 → 0 < p1.summonsRemaining →
          0 < p2.summonsRemaining →
          ¬ (∃ t, p1.summonCooldownEnd = some t ∧ now < t) →
          (∃ t, p2.summonCooldownEnd = some t ∧ now < t) →
          (checkSummonEligibility now p1 p2).reason
            = some (p2.name ++ " is on cooldown until "
                ++ toString (p2.summonCooldownEnd.getD 0)))
      ∧ (p1.id ≠ p2.id → ¬ relatedSpec p1 p2 → 0 < p1.summonsRemaining →
          0 < p2.summonsRemaining →
          ¬ (∃ t, p1.summonCooldownEnd = some t ∧ now < t) →
          ¬ (∃ t, p2.summonCooldownEnd = some t ∧ now < t) →
          checkSummonEligibility now p1 p2 =
            { eligible := true, reason := none
              cost := some (calculateSummonCost p1 p2)
              cooldownHoursP1 := some (cooldownHours p1)
              cooldownHoursP2 := some (cooldownHours p2) }) := by
  intro now p1 p2
  have hrel : areTooRelated p1.parentIds p2.parentIds p1.id p2.id = true
      ↔ relatedSpec p1 p2 :=
    areTooRelated_iff p1.parentIds p2.parentIds p1.id p2.id
  have hcd1 : onCooldown now p1 = true
      ↔ ∃ t, p1.summonCooldownEnd = some t ∧ now < t := onCooldown_iff now p1
  have hcd2 : onCooldown now p2 = true
      ↔ ∃ t, p2.summonCooldownEnd = some t ∧ now < t := onCooldown_iff now p2
  unfold checkSummonEligibility
  split_ifs with h1 h2 h3 h4 h5 h6 <;>
    refine ⟨?_, ?_, ?_, ?_, ?_, ?_, ?_, ?_⟩ <;>
    simp_all

/-- Witness for C3: the two example parents pass every gate and get the
computed cost plus per-parent cooldown durations. -/
theorem checkSummonEligibility_spec_witness :
    checkSummonEligibility 0 exGen0Parent exGen1Parent =
      { eligible := true, reason := none
        cost := some (calculateSummonCost exGen0Parent exGen1Parent)
        cooldownHoursP1 := some (cooldownHours exGen0Parent)
        cooldownHoursP2 := some (cooldownHours exGen1Parent) } :=
  (checkSummonEligibility_spec 0 exGen0Parent exGen1Parent).2.2.2.2.2.2.2
    (by decide)
    (by simp [relatedSpec, pairHas, sameUnorderedParents, exGen0Parent,
      exGen1Parent, mkProfile])
    (by decide) (by decide)
    (by simp [exGen0Parent, mkProfile])
    (by simp [exGen1Parent, mkProfile])

/-- Claim C8: every stat the Stat Synthesizer produces is at least 1:
`generateBaseStats` jitters each base stat by a uniform integer in
−2..+2 and floors at 1 (so the result lies in
`[max(1, base − 2), base + 2]`), and `applyRarityBonuses`,
`rollStatGrowth` and the +2 stat-boost step never decrease a stat, so
offspring stat blocks stay ≥ 1 throughout synthesis. -/
theorem stats_ge_one :
    (∀ (c : SigilClass) (draws : StatName → ℚ),
      (∀ k, 0 ≤ draws k ∧ draws k < 1) →
      ∀ k, max 1 ((CLASS_DEFINITIONS c).baseStats k - 2)
            ≤ generateBaseStats c draws k
        ∧ generateBaseStats c draws k ≤ (CLASS_DEFINITIONS c).baseStats k + 2
        ∧ 1 ≤ generateBaseStats c draws k)
    ∧ (∀ (stats : SigilStats) (r : Rarity) (draws : ℕ → ℚ) (k : StatName),
      stats k ≤ applyRarityBonuses stats r draws k)
    ∧ (∀ (stats : SigilStats) (pg sg : StatGrowthRates)
        (d1 d2 : StatName → ℚ) (k : StatName),
      stats k ≤ rollStatGrowth stats pg sg d1 d2 k)
    ∧ (∀ (p1 p2 : SigilProfile) (nm ow : String) (rnd : SummonRnd)
        (oid rid : String) (now : ℤ),
      (∀ k, 0 ≤ rnd.statDraws k ∧ rnd.statDraws k < 1) →
      ∀ k, 1 ≤ (executeSummon p1 p2 nm ow rnd oid rid now).offspring.stats k) := by
  have hbase :
      ∀ (c : SigilClass) (draws : StatName → ℚ),
        (∀ k, 0 ≤ draws k ∧ draws k < 1) →
        ∀ k, max 1 ((CLASS_DEFINITIONS c).baseStats k - 2)
              ≤ generateBaseStats c draws k
          ∧ generateBaseStats c draws k ≤ (CLASS_DEFINITIONS c).baseStats k + 2
          ∧ 1 ≤ generateBaseStats c draws k := by
    intro c draws h k
    obtain ⟨h0, h1⟩ := h k
    have hv0 : (0 : ℤ) ≤ ⌊draws k * 5⌋ := by
      apply Int.floor_nonneg.mpr
      positivity
    have hv4 : ⌊draws k * 5⌋ ≤ 4 := by
      have : ⌊draws k * 5⌋ < 5 := by
        apply Int.floor_lt.mpr
        push_cast
        linarith
      omega
    have hb := baseStats_ge_one c k
    unfold generateBaseStats
    refine ⟨max_le_max (le_refl 1) (by omega), max_le (by omega) (by omega),
      le_max_left _ _⟩
  have hboost :
      ∀ (stats : SigilStats) (key : StatName) (k : StatName),
        stats k ≤ updateStat stats key (stats key + 2) k := fun stats key k =>
    updateStat_add_mono stats key 2 (by norm_num) k
  refine ⟨hbase, fun stats r draws k => applyRarityBonuses_mono stats r draws k,
    ?_, ?_⟩
  · intro stats pg sg d1 d2 k
    unfold rollStatGrowth
    split_ifs <;> omega
  · intro p1 p2 nm ow rnd oid rid now h k
    show (1 : ℤ) ≤ _
    simp only [executeSummon]
    set genes := inheritGenes p1.genes p2.genes rnd.genome with hg
    set rarity := rollOffspringRarity p1.rarity p2.rarity rnd.rarityRoll with hr
    set stats0 := generateBaseStats genes.«class».dominant rnd.statDraws with hs0
    set stats1 := updateStat stats0 genes.statBoost.dominant
      (stats0 genes.statBoost.dominant + 2) with hs1
    have g1 : (1 : ℤ) ≤ stats0 k :=
      (hbase genes.«class».dominant rnd.statDraws h k).2.2
    have g2 : stats0 k ≤ stats1 k := hboost stats0 genes.statBoost.dominant k
    by_cases hrc : rarity ≠ Rarity.common
    · rw [if_pos hrc]
      calc (1 : ℤ) ≤ stats0 k := g1
        _ ≤ stats1 k := g2
        _ ≤ applyRarityBonuses stats1 rarity rnd.bonusDraws k :=
          applyRarityBonuses_mono stats1 rarity rnd.bonusDraws k
    · rw [if_neg hrc]
      omega

/-- Witness for C8 at concrete draws of 1/2. -/
theorem stats_ge_one_witness :
    (1 : ℤ) ≤ generateBaseStats .ember (fun _ => 1/2) .str
    ∧ (1 : ℤ) ≤ (executeSummon exGen0Parent exGen1Parent "kid" "own"
        exampleRnd "oid" "rid" 0).offspring.stats .str :=
  ⟨(stats_ge_one.1 .ember (fun _ => 1/2) (fun k => by norm_num) .str).2.2,
   stats_ge_one.2.2.2 exGen0Parent exGen1Parent "kid" "own" exampleRnd
     "oid" "rid" 0 (fun k => by norm_num [exampleRnd]) .str⟩

/-- `⌊r·n⌋ = i` exactly on the sub-interval `[i/n, (i+1)/n)`. -/
lemma floor_mul_toNat_eq {r : ℚ} {n i : ℕ} (hn : 0 < n)
    (h1 : (i : ℚ) / n ≤ r) (h2 : r < ((i : ℚ) + 1) / n) :
    (⌊r * (n : ℚ)⌋).toNat = i := by
  have hnq : (0 : ℚ) < n := by exact_mod_cast hn
  have hf : ⌊r * (n : ℚ)⌋ = (i : ℤ) := by
    rw [Int.floor_eq_iff]
    constructor
    · have := (div_le_iff₀ hnq).mp h1
      push_cast
      linarith
    · have := (lt_div_iff₀ hnq).mp h2
      push_cast
      linarith
  rw [hf]
  exact Int.toNat_natCast i

/-- `randomFrom` picks element `i` exactly when the draw lies in
`[i/n, (i+1)/n)` — each of the `n` elements gets an interval of
length `1/n`. -/
lemma randomFrom_uniform {T : Type} [Inhabited T] (arr : List T) (i : ℕ)
    (hi : i < arr.length) (r : ℚ)
    (h1 : (i : ℚ) / arr.length ≤ r)
    (h2 : r < ((i : ℚ) + 1) / arr.length) :
    randomFrom arr r = arr.getD i default := by
  unfold randomFrom
  rw [floor_mul_toNat_eq (Nat.lt_of_le_of_lt (Nat.zero_le i) hi) h1 h2]

/-- Claim C4: `inheritSlot` builds the offspring's dominant layer from
parent 1's selection and recessive layer from parent 2's selection;
selection picks the dominant layer for draws below 0.75, the recessive
below 0.9375 and the hidden otherwise (weights 75% / 18.75% / 6.25%,
summing to 1); the hidden layer is a uniform pick from the domain; each
final layer mutates with probability 0.02 into a uniform pick; and
`inheritGenes` applies this slot algorithm independently (disjoint
draws) to the six slots. -/
theorem inheritSlot_spec :
    (∀ (T : Type) [Inhabited T] (p1 p2 : GeneLayers T) (pool : List T)
      (rnd : SlotRnd),
      inheritSlot p1 p2 pool rnd =
        { dominant := maybeMutate (selectGene p1 rnd.sel1) pool rnd.m1 rnd.r1
          recessive := maybeMutate (selectGene p2 rnd.sel2) pool rnd.m2 rnd.r2
          hidden := maybeMutate (randomFrom pool rnd.hid) pool rnd.m3 rnd.r3 })
    ∧ (∀ (T : Type) (layers : GeneLayers T) (roll : ℚ),
      (roll < 75/100 → selectGene layers roll = layers.dominant)
      ∧ (75/100 ≤ roll → roll < 9375/10000 →
          selectGene layers roll = layers.recessive)
      ∧ (9375/10000 ≤ roll → selectGene layers roll = layers.hidden))
    ∧ (DOMINANT_CHANCE = 75/100 ∧ RECESSIVE_CHANCE = 1875/10000
       ∧ HIDDEN_CHANCE = 625/10000
       ∧ DOMINANT_CHANCE + RECESSIVE_CHANCE + HIDDEN_CHANCE = 1)
    ∧ (∀ (T : Type) [Inhabited T] (g : T) (pool : List T) (m r : ℚ),
      (m < 2/100 → maybeMutate g pool m r = randomFrom pool r)
      ∧ (2/100 ≤ m → maybeMutate g pool m r = g))
    ∧ (∀ (T : Type) [Inhabited T] (pool : List T) (i : ℕ),
      i < pool.length →
      ∀ r : ℚ, (i : ℚ) / pool.length ≤ r →
        r < ((i : ℚ) + 1) / pool.length →
        randomFrom pool r = pool.getD i default)
    ∧ (∀ (g1 g2 : SigilGenome) (rnd : GenomeRnd),
      inheritGenes g1 g2 rnd =
        { «class» := inheritSlot g1.«class» g2.«class» CLASSES rnd.«class»
          subclass := inheritSlot g1.subclass g2.subclass CLASSES rnd.subclass
          profession := inheritSlot g1.profession g2.profession
            PROFESSIONS rnd.profession
          activeAbility := inheritSlot g1.activeAbility g2.activeAbility
            ACTIVE_ABILITIES rnd.activeAbility
          passiveAbility := inheritSlot g1.passiveAbility g2.passiveAbility
            PASSIVE_ABILITIES rnd.passiveAbility
          statBoost := inheritSlot g1.statBoost g2.statBoost
            STAT_NAMES rnd.statBoost }) := by
  have hD : DOMINANT_CHANCE = 75/100 := by norm_num [DOMINANT_CHANCE]
  have hR : RECESSIVE_CHANCE = 1875/10000 := by norm_num [RECESSIVE_CHANCE]
  have hH : HIDDEN_CHANCE = 625/10000 := by norm_num [HIDDEN_CHANCE]
  have hM : MUTATION_RATE = 2/100 := by norm_num [MUTATION_RATE]
  refine ⟨fun T _ p1 p2 pool rnd => rfl, ?_, ⟨hD, hR, hH, by
    rw [hD, hR, hH]; norm_num⟩, ?_, ?_, fun g1 g2 rnd => rfl⟩
  · intro T layers roll
    refine ⟨?_, ?_, ?_⟩ <;> intros h1 <;> unfold selectGene <;>
      rw [hD] at * <;> try rw [hR] at *
    · rw [if_pos h1]
    · intro h2
      rw [if_neg (by linarith), if_pos (by rw [hD, hR]; linarith)]
    · rw [if_neg (by rw [hD]; linarith),
        if_neg (by rw [hD, hR]; linarith)]
  · intro T _ g pool m r
    constructor <;> intro h1 <;> unfold maybeMutate
    · rw [if_pos (by rw [hM]; exact h1)]
    · rw [if_neg (by rw [hM]; exact not_lt.mpr h1)]
  · intro T _ pool i hi r h1 h2
    exact randomFrom_uniform pool i hi r h1 h2

/-- Witness for C4 at concrete layers, pools and draws. -/
theorem inheritSlot_spec_witness :
    selectGene (⟨SigilClass.ember, .thorn, .veil⟩ : GeneLayers SigilClass)
        (1/2) = SigilClass.ember
    ∧ selectGene (⟨SigilClass.ember, .thorn, .veil⟩ : GeneLayers SigilClass)
        (8/10) = SigilClass.thorn
    ∧ selectGene (⟨SigilClass.ember, .thorn, .veil⟩ : GeneLayers SigilClass)
        (95/100) = SigilClass.veil
    ∧ maybeMutate SigilClass.ember CLASSES (1/100) (1/2)
        = randomFrom CLASSES (1/2)
    ∧ maybeMutate SigilClass.ember CLASSES (1/2) (1/2) = SigilClass.ember
    ∧ randomFrom CLASSES (5/12) = CLASSES.getD 2 default :=
  ⟨(inheritSlot_spec.2.1 SigilClass ⟨.ember, .thorn, .veil⟩ (1/2)).1
      (by norm_num),
   (inheritSlot_spec.2.1 SigilClass ⟨.ember, .thorn, .veil⟩ (8/10)).2.1
      (by norm_num) (by norm_num),
   (inheritSlot_spec.2.1 SigilClass ⟨.ember, .thorn, .veil⟩ (95/100)).2.2
      (by norm_num),
   (inheritSlot_spec.2.2.2.1 SigilClass SigilClass.ember CLASSES
      (1/100) (1/2)).1 (by norm_num),
   (inheritSlot_spec.2.2.2.1 SigilClass SigilClass.ember CLASSES
      (1/2) (1/2)).2 (by norm_num),
   inheritSlot_spec.2.2.2.2.1 SigilClass CLASSES 2 (by decide) (5/12)
      (by norm_num [CLASSES]) (by norm_num [CLASSES])⟩

/-- `rollOffspringRarity` as a four-threshold case split (definitional
repackaging of the source's if-chain). -/
lemma rollOffspringRarity_cases (p1 p2 : Rarity) (r : ℚ) :
    rollOffspringRarity p1 p2 r =
      if r < mythicCut p1 p2 then .mythic
      else if r < legendaryCut p1 p2 then .legendary
      else if r < rareCut p1 p2 then .rare
      else if r < uncommonCut p1 p2 then .uncommon
      else .common := rfl

/-- With two common parents the tier bonus is zero. -/
lemma bonusQ_common : bonusQ .common .common = 0 := by
  have h : RARITY_TIERS.indexOf Rarity.common = 0 := rfl
  rw [bonusQ, h]
  norm_num

/-- With two mythic parents the tier bonus is `4 × 0.03 = 0.12`. -/
lemma bonusQ_mythic : bonusQ .mythic .mythic = 3/25 := by
  have h : RARITY_TIERS.indexOf Rarity.mythic = 4 := rfl
  rw [bonusQ, h]
  norm_num

/-- The thresholds for two common (tier-0) parents: the bonus is zero,
so the source's hard-coded constants are used untouched. -/
lemma cuts_common :
    mythicCut .common .common = 1/1000
    ∧ legendaryCut .common .common = 9/1000
    ∧ rareCut .common .common = 1/25
    ∧ uncommonCut .common .common = 1/5 := by
  refine ⟨?_, ?_, ?_, ?_⟩ <;>
    simp only [mythicCut, legendaryCut, rareCut, uncommonCut, bonusQ_common] <;>
    norm_num

/-- The thresholds for two mythic (tier-4) parents (bonus `0.12`). -/
lemma cuts_mythic :
    mythicCut .mythic .mythic = 11/5000
    ∧ legendaryCut .mythic .mythic = 3/200
    ∧ rareCut .mythic .mythic = 13/250
    ∧ uncommonCut .mythic .mythic = 109/500 := by
  refine ⟨?_, ?_, ?_, ?_⟩ <;>
    simp only [mythicCut, legendaryCut, rareCut, uncommonCut, bonusQ_mythic] <;>
    norm_num

/-- Claim C1 (amended): with two common parents the roll maps
`[0, 1/1000)` to mythic, `[1/1000, 9/1000)` to legendary,
`[9/1000, 1/25)` to rare, `[1/25, 1/5)` to uncommon and `[1/5, 1)` to
common, so only the mythic probability equals its registry chance — the
others are 0.008, 0.031, 0.16 and 0.80 instead of the registry's 0.009,
0.04, 0.20, 0.75; with two mythic parents the mythic probability is
11/5000 = 0.0022, strictly above the base 0.001 and still below 1%. -/
theorem rollOffspringRarity_spec :
    (∀ r : ℚ, 0 ≤ r → r < 1 →
      (r < 1/1000 → rollOffspringRarity .common .common r = .mythic)
      ∧ (1/1000 ≤ r → r < 9/1000 →
          rollOffspringRarity .common .common r = .legendary)
      ∧ (9/1000 ≤ r → r < 1/25 →
          rollOffspringRarity .common .common r = .rare)
      ∧ (1/25 ≤ r → r < 1/5 →
          rollOffspringRarity .common .common r = .uncommon)
      ∧ (1/5 ≤ r → rollOffspringRarity .common .common r = .common))
    ∧ tierMeasure .common .common .mythic = (RARITY_DEFINITIONS .mythic).chance
    ∧ tierMeasure .common .common .legendary = 8/1000
    ∧ tierMeasure .common .common .rare = 31/1000
    ∧ tierMeasure .common .common .uncommon = 16/100
    ∧ tierMeasure .common .common .common = 80/100
    ∧ (∀ r : ℚ, 0 ≤ r →
      (r < 11/5000 → rollOffspringRarity .mythic .mythic r = .mythic)
      ∧ (11/5000 ≤ r → rollOffspringRarity .mythic .mythic r ≠ .mythic))
    ∧ tierMeasure .mythic .mythic .mythic = 11/5000
    ∧ (RARITY_DEFINITIONS .mythic).chance < 11/5000
    ∧ (11/5000 : ℚ) < 1/100 := by
  obtain ⟨hM, hL, hR, hU⟩ := cuts_common
  obtain ⟨hM', hL', hR', hU'⟩ := cuts_mythic
  refine ⟨?_,
    by simp only [tierMeasure]; rw [hM]; norm_num [RARITY_DEFINITIONS],
    by simp only [tierMeasure]; rw [hL, hM]; norm_num,
    by simp only [tierMeasure]; rw [hR, hL]; norm_num,
    by simp only [tierMeasure]; rw [hU, hR]; norm_num,
    by simp only [tierMeasure]; rw [hU]; norm_num, ?_,
    by simp only [tierMeasure]; rw [hM'],
    by norm_num [RARITY_DEFINITIONS],
    by norm_num⟩
  · intro r h0 h1
    rw [rollOffspringRarity_cases] at *
    simp only [hM, hL, hR, hU]
    refine ⟨?_, ?_, ?_, ?_, ?_⟩ <;> intros <;> split_ifs <;>
      first | rfl | linarith
  · intro r h0
    rw [rollOffspringRarity_cases] at *
    simp only [hM', hL', hR', hU']
    constructor
    · intro h
      rw [if_pos h]
    · intro h
      split_ifs with c1 c2 c3 c4 <;> first | linarith | decide

/-- Counterexample to C1 as stated: at the draw 0.22 the code returns
common while the claimed registry distribution (cumulative walk of the
base chances) returns uncommon, and the induced per-tier measures
differ from the registry chances for every tier but mythic. -/
theorem rollOffspringRarity_counterexample :
    rollOffspringRarity .common .common (11/50) = .common
    ∧ claimedOffspringRarityCommon (11/50) = .uncommon
    ∧ tierMeasure .common .common .uncommon
        ≠ (RARITY_DEFINITIONS .uncommon).chance
    ∧ tierMeasure .common .common .legendary
        ≠ (RARITY_DEFINITIONS .legendary).chance
    ∧ tierMeasure .common .common .rare ≠ (RARITY_DEFINITIONS .rare).chance
    ∧ tierMeasure .common .common .common
        ≠ (RARITY_DEFINITIONS .common).chance := by
  obtain ⟨hM, hL, hR, hU⟩ := cuts_common
  refine ⟨?_, ?_, ?_, ?_, ?_, ?_⟩
  · rw [rollOffspringRarity_cases, hM, hL, hR, hU]
    norm_num
  · norm_num [claimedOffspringRarityCommon, RARITY_DEFINITIONS]
  · simp only [tierMeasure]; rw [hU, hR]; norm_num [RARITY_DEFINITIONS]
  · simp only [tierMeasure]; rw [hL, hM]; norm_num [RARITY_DEFINITIONS]
  · simp only [tierMeasure]; rw [hR, hL]; norm_num [RARITY_DEFINITIONS]
  · simp only [tierMeasure]; rw [hU]; norm_num [RARITY_DEFINITIONS]

/-- Witness for C1 at three concrete draws. -/
theorem rollOffspringRarity_spec_witness :
    rollOffspringRarity .common .common (1/2) = .common
    ∧ rollOffspringRarity .common .common (1/100) = .rare
    ∧ rollOffspringRarity .mythic .mythic (1/1000) = .mythic :=
  ⟨(rollOffspringRarity_spec.1 (1/2) (by norm_num) (by norm_num)).2.2.2.2
      (by norm_num),
   (rollOffspringRarity_spec.1 (1/100) (by norm_num) (by norm_num)).2.2.1
      (by norm_num) (by norm_num),
   (rollOffspringRarity_spec.2.2.2.2.2.2.1 (1/1000) (by norm_num)).1
      (by norm_num)⟩

end Sigilborn
